import Mathlib

/-!
# Verification of `square_model_client/model_client.py`

A shallow embedding of the SQuARE model client (`SQuAREModelClient`) and
proofs about its payload codec, task poller, prediction facade and
idempotent deployment guard.

The client manipulates JSON-decoded Python values (strings, ints, bools,
`None`, lists, dicts) and numpy arrays produced from them.  We model this
value universe as the inductive type `PyVal`.  Numpy arrays enter the
picture in exactly two ways in the source: `_decode` turns a base64 string
into an array via `np.load`, and `np.array(arr)` wraps a plain JSON value;
we represent the two results symbolically as `ndarrayB64 s` and
`ndarrayOf v` (the binary deserialization itself is outside the claims).

Fallible Python operations (subscripting, decode) are modelled in
`Except PyErr`.  The poller's `while` loop is modelled by structural
recursion on the remaining attempt budget (`maxAttempts - attempts`),
which is exactly the number of iterations the Python condition
`attempts < max_attempts` still allows.
-/

/-- The Python exception classes the client can raise. -/
inductive PyErr : Type where
  | valueError
  | keyError
  | typeError
  | attributeError
deriving DecidableEq

/-- JSON-decoded Python values plus the numpy arrays the codec produces.
`ndarrayB64 s` is the array `np.load` yields from the base64 payload `s`
(the source's `_decode`); `ndarrayOf v` is `np.array(v)`. -/
inductive PyVal : Type where
  | str (s : String)
  | int (n : Int)
  | boolV (b : Bool)
  | none
  | list (vs : List PyVal)
  | dict (entries : List (String × PyVal))
  | ndarrayB64 (s : String)
  | ndarrayOf (v : PyVal)

mutual
/-- Python `==` on the values above (structural on the JSON fragment;
Python compares dicts key-by-key and lists element-by-element). -/
def pyEq : PyVal → PyVal → Bool
  | .str a, .str b => a == b
  | .int a, .int b => a == b
  | .boolV a, .boolV b => a == b
  | .none, .none => true
  | .list a, .list b => pyEqList a b
  | .dict a, .dict b => pyEqEntries a b
  | .ndarrayB64 a, .ndarrayB64 b => a == b
  | .ndarrayOf a, .ndarrayOf b => pyEq a b
  | _, _ => false

/-- Elementwise `==` on lists. -/
def pyEqList : List PyVal → List PyVal → Bool
  | [], [] => true
  | a :: as, b :: bs => pyEq a b && pyEqList as bs
  | _, _ => false

/-- Entrywise `==` on dict entry lists. -/
def pyEqEntries : List (String × PyVal) → List (String × PyVal) → Bool
  | [], [] => true
  | (k₁, v₁) :: as, (k₂, v₂) :: bs => k₁ == k₂ && pyEq v₁ v₂ && pyEqEntries as bs
  | _, _ => false
end

/-- Python truthiness (`if val:`) for the values above.  JSON-decoded
values never contain ndarrays in truth-test position in this client, so
the ndarray cases are unreachable; we let them be truthy. -/
def truthy : PyVal → Bool
  | .str s => s != ""
  | .int n => n != 0
  | .boolV b => b
  | .none => false
  | .list vs => !vs.isEmpty
  | .dict entries => !entries.isEmpty
  | .ndarrayB64 _ => true
  | .ndarrayOf _ => true

/-- Python `d[key]` for a string key: a value in a dict, `KeyError` if the
key is absent, `TypeError` if the value is not subscriptable by a string
(this includes `None["result"]`). -/
def subscript (v : PyVal) (key : String) : Except PyErr PyVal :=
  match v with
  | .dict entries =>
    match entries.lookup key with
    | some x => .ok x
    | Option.none => .error .keyError
  | _ => .error .typeError

/-- Python `d[key] = v` on a dict: replace the first binding of `key` in
place (dicts keep insertion order), appending if absent. -/
def dictSet : List (String × PyVal) → String → PyVal → List (String × PyVal)
  | [], k, v => [(k, v)]
  | (k₁, v₁) :: rest, k, v =>
    if k₁ = k then (k, v) :: rest else (k₁, v₁) :: dictSet rest k v

/-- `r[key] = v` lifted to `PyVal`; only ever applied after a successful
dict subscript, so the non-dict case is unreachable. -/
def setItem : PyVal → String → PyVal → PyVal
  | .dict entries, k, v => .dict (dictSet entries k v)
  | r, _, _ => r

mutual
/-- `dec_or_iterate` from `decode_model_api_response`: a string leaf is
base64-decoded into an array (`_decode`), an iterable is traversed
recursively (iterating a Python dict yields its keys, which are strings),
and any other value raises `ValueError`.  Codec inputs are JSON-parsed
response bodies, so the ndarray cases never occur; they fall into the
error branch. -/
def dec_or_iterate : PyVal → Except PyErr PyVal
  | .str s => .ok (.ndarrayB64 s)
  | .list vs =>
    match decList vs with
    | .ok ws => .ok (.list ws)
    | .error e => .error e
  | .dict entries => .ok (.list (entries.map fun e => .ndarrayB64 e.1))
  | .int _ => .error .valueError
  | .boolV _ => .error .valueError
  | .none => .error .valueError
  | .ndarrayB64 _ => .error .valueError
  | .ndarrayOf _ => .error .valueError

/-- The list comprehension `[dec_or_iterate(v) for v in val]`. -/
def decList : List PyVal → Except PyErr (List PyVal)
  | [] => .ok []
  | v :: vs =>
    match dec_or_iterate v with
    | .ok w =>
      match decList vs with
      | .ok ws => .ok (w :: ws)
      | .error e => .error e
    | .error e => .error e
end

/-- The dict comprehension `{key: dec_or_iterate(arr) for key, arr in
model_api_response["model_outputs"].items()}`. -/
def decEntries : List (String × PyVal) → Except PyErr (List (String × PyVal))
  | [] => .ok []
  | (k, v) :: rest =>
    match dec_or_iterate v with
    | .ok w =>
      match decEntries rest with
      | .ok ws => .ok ((k, w) :: ws)
      | .error e => .error e
    | .error e => .error e

/-- The value assigned to `model_api_response["model_outputs"]`: under
`model_output_is_encoded` the comprehension with `dec_or_iterate`,
otherwise the comprehension with `np.array`; either comprehension calls
`.items()` on the old value, raising `AttributeError` when it is not a
dict. -/
def decodeOutputs (flag outs : PyVal) : Except PyErr PyVal :=
  match outs with
  | .dict entries =>
    if truthy flag then
      match decEntries entries with
      | .ok entries₂ => .ok (.dict entries₂)
      | .error e => .error e
    else
      .ok (.dict (entries.map fun e => (e.1, .ndarrayOf e.2)))
  | _ => .error .attributeError

/-- `decode_model_api_response`.  The source assigns the decoded outputs
into the argument dict (`model_api_response["model_outputs"] = ...`) and
returns that same dict, so the value produced here is simultaneously the
function's return value and the post-call state of its argument. -/
def decode_model_api_response (model_api_response : PyVal) : Except PyErr PyVal :=
  match subscript model_api_response "model_output_is_encoded" with
  | .error e => .error e
  | .ok flag =>
    match subscript model_api_response "model_outputs" with
    | .error e => .error e
    | .ok outs =>
      match decodeOutputs flag outs with
      | .error e => .error e
      | .ok outs₂ => .ok (setItem model_api_response "model_outputs" outs₂)

/-! ## Task Poller (`_wait_for_task`) -/

/-- One HTTP response: status code and JSON-decoded body
(`response.json()` is called on every poll response in the source). -/
structure Response : Type where
  status_code : Nat
  body : PyVal

/-- The `while attempts < max_attempts` loop of `_wait_for_task`, by
structural recursion on the number of iterations the loop condition still
allows (`fuel = max_attempts - attempts`).  `responses i` is the response
to the `(i+1)`-st GET of `task_result/{task_id}`; `attempts` and `result`
are the loop variables.  Returns the final `attempts` counter together
with the final `result` (initially `None`, set to the response body on the
first status-200 response, which `break`s the loop).  `time.sleep` has no
observable effect in this model. -/
def pollLoop (responses : Nat → Response) : Nat → Nat → PyVal → Nat × PyVal
  | 0, attempts, result => (attempts, result)
  | fuel + 1, attempts, _ =>
    let response := responses attempts
    if response.status_code = 200 then
      (attempts + 1, response.body)
    else
      pollLoop responses fuel (attempts + 1) .none

/-- `_wait_for_task`, given the stream of poll responses and the resolved
`max_attempts`.  After the loop the source executes `return
result["result"]`; when the budget was exhausted `result` is still `None`,
so this subscript raises `TypeError`.  Returns the number of attempts made
together with the outcome. -/
def waitForTask (responses : Nat → Response) (maxAttempts : Nat) :
    Nat × Except PyErr PyVal :=
  let out := pollLoop responses maxAttempts 0 .none
  (out.1, subscript out.2 "result")

/-- `self.max_attempts` as set in `__init__`; used when `_wait_for_task`
is called without an explicit `max_attempts` (as `predict` does). -/
def defaultMaxAttempts : Nat := 50

/-! ## Prediction facade (`predict` and `__call__`) -/

/-- The HTTP requests the prediction path can issue (URL shapes from the
source: `POST {base}/main/{model_identifier}/{prediction_method}` and
`GET {base}/main/task_result/{task_id}`). -/
inductive Request : Type where
  | predictPost (model_identifier prediction_method : String) (body : PyVal)
  | taskResultGet (task_id : PyVal)

/-- The network environment a `predict` call runs against: the response
to its POST and the stream of responses to the poller's GETs. -/
structure Net : Type where
  postPredict : Response
  taskResult : Nat → Response

/-- What `predict` returns on the non-raising paths: the polled task
result (status 200) or the raw response object (any other status). -/
inductive PredictResult : Type where
  | value (v : PyVal)
  | raw (r : Response)

/-- `supported_prediction_methods` from `predict`. -/
def supported_prediction_methods : List String :=
  ["embedding", "sequence-classification", "token-classification",
   "generation", "question-answering"]

/-- `predict`: validate `prediction_method` (raising `ValueError` before
any request is issued), POST the input, and on status 200 subscript the
body for `task_id` and delegate to `_wait_for_task` with the default
budget.  The first component lists the HTTP requests issued, in order. -/
def predict (net : Net) (model_identifier prediction_method : String)
    (input_data : PyVal) : List Request × Except PyErr PredictResult :=
  if prediction_method ∉ supported_prediction_methods then
    ([], .error .valueError)
  else
    let response := net.postPredict
    let issued := [Request.predictPost model_identifier prediction_method input_data]
    if response.status_code = 200 then
      match subscript response.body "task_id" with
      | .error e => (issued, .error e)
      | .ok task_id =>
        let polled := waitForTask net.taskResult defaultMaxAttempts
        (issued ++ List.replicate polled.1 (.taskResultGet task_id),
         match polled.2 with
         | .ok v => .ok (.value v)
         | .error e => .error e)
    else
      (issued, .ok (.raw response))

/-- `__call__`: run `predict`, then pass its return value through
`decode_model_api_response`.  When `predict` returned a raw `Response`
object (its non-200 path), the decode subscripts a non-dict and raises
`TypeError`. -/
def callClient (net : Net) (model_name pipeline : String)
    (model_request : PyVal) : List Request × Except PyErr PyVal :=
  let prediction := predict net model_name pipeline model_request
  (prediction.1,
   match prediction.2 with
   | .error e => .error e
   | .ok (.value v) => decode_model_api_response v
   | .ok (.raw _) => .error .typeError)

/-! ## Idempotent deployment guard (`deploy_model_if_not_exists`) -/

/-- Python `d.get(key, default)` on a dict whose keys are arbitrary
values (the mapping `get_models_in_deployment` builds), with lookup by
Python `==`. -/
def pyDictGet (d : List (PyVal × PyVal)) (key default : PyVal) : PyVal :=
  match d with
  | [] => default
  | (k, v) :: rest => if pyEq k key then v else pyDictGet rest key default

/-- What the server reports to the guard: the JSON list of model records
returned by `deployed_models()` and the name-to-type mapping returned by
`get_models_in_deployment()`. -/
structure GuardEnv : Type where
  deployedModels : List PyVal
  modelsInDeployment : List (PyVal × PyVal)

/-- The observable effect of `deploy_model_if_not_exists`: either no
deployment is triggered, or `self.deploy` is called once with the given
attribute dict (the Python function itself always returns `None`). -/
inductive GuardResult : Type where
  | noDeploy
  | deployCalled (model_attributes : List (String × PyVal))

/-- The generator expression inside
`any(model['model_name'] == model_name and model['model_type'] == model_type
for model in deployed_models)`: `any` consumes it lazily, `and`
short-circuits, and a missing key raises `KeyError` at that record. -/
def anyModelMatches (models : List PyVal) (model_name : PyVal)
    (model_type : String) : Except PyErr Bool :=
  match models with
  | [] => .ok false
  | m :: rest =>
    match subscript m "model_name" with
    | .error e => .error e
    | .ok mn =>
      if pyEq mn model_name then
        match subscript m "model_type" with
        | .error e => .error e
        | .ok mt =>
          if pyEq mt (.str model_type) then .ok true
          else anyModelMatches rest model_name model_type
      else anyModelMatches rest model_name model_type

/-- `deploy_model_if_not_exists(default_skill_args)`:
`model_name = default_skill_args.get("base_model")` (no-op when falsy),
`model_type = "adapter" if "adapter" in default_skill_args else
"transformer"`, then the two no-op checks against `deployed_models()` and
`get_models_in_deployment()`, and otherwise a single `self.deploy` call
with the minimal attribute dict. -/
def deploy_model_if_not_exists (env : GuardEnv)
    (default_skill_args : List (String × PyVal)) : Except PyErr GuardResult :=
  let model_name := (default_skill_args.lookup "base_model").getD .none
  if ¬ truthy model_name then .ok .noDeploy
  else
    let model_type :=
      if (default_skill_args.lookup "adapter").isSome then "adapter"
      else "transformer"
    match anyModelMatches env.deployedModels model_name model_type with
    | .error e => .error e
    | .ok true => .ok .noDeploy
    | .ok false =>
      if pyEq (pyDictGet env.modelsInDeployment model_name (.str ""))
          (.str model_type) then
        .ok .noDeploy
      else
        .ok (.deployCalled
          [("identifier", model_name),
           ("model_name", model_name),
           ("model_type", .str model_type)])

/-! ## Specification-side helpers for the theorems -/

/-- Nested ordered sequences of encoded (string) leaves: the domain of
the structure-preservation claim about `dec_or_iterate`. -/
inductive IsEncodedSeq : PyVal → Prop where
  | str (s : String) : IsEncodedSeq (.str s)
  | list (vs : List PyVal) (h : ∀ v ∈ vs, IsEncodedSeq v) : IsEncodedSeq (.list vs)

mutual
/-- The intended effect of `dec_or_iterate` on a nested sequence of
encoded leaves: replace each leaf string by its decoded array, leave the
container structure alone. -/
def decodeLeaves : PyVal → PyVal
  | .str s => .ndarrayB64 s
  | .list vs => .list (decodeLeavesList vs)
  | v => v

/-- `decodeLeaves` over a list of values. -/
def decodeLeavesList : List PyVal → List PyVal
  | [] => []
  | v :: vs => decodeLeaves v :: decodeLeavesList vs
end

mutual
/-- The container shape of a value: list nesting with every leaf erased
to `None`.  Two values have the same `shapeOf` exactly when they have the
same nesting depth and order of elements. -/
def shapeOf : PyVal → PyVal
  | .list vs => .list (shapeOfList vs)
  | _ => .none

/-- `shapeOf` over a list of values. -/
def shapeOfList : List PyVal → List PyVal
  | [] => []
  | v :: vs => shapeOf v :: shapeOfList vs
end

/-- A well-formed model record as returned by `deployed_models()`: a dict
carrying at least `model_name` and `model_type`. -/
def wfRecordB : PyVal → Bool
  | .dict entries =>
    (entries.lookup "model_name").isSome && (entries.lookup "model_type").isSome
  | _ => false

/-- A record matches the guard's query when its `model_name` equals the
base model name and its `model_type` equals the derived type (both by
Python `==`). -/
def recordMatchesB (m model_name : PyVal) (model_type : String) : Bool :=
  match m with
  | .dict entries =>
    match entries.lookup "model_name", entries.lookup "model_type" with
    | some mn, some mt => pyEq mn model_name && pyEq mt (.str model_type)
    | _, _ => false
  | _ => false

/-! ## Poller lemmas -/

/-- If every response the remaining budget can reach is non-200, the loop
runs through its whole budget and leaves `result = None`. -/
theorem pollLoop_exhaust (responses : Nat → Response) :
    ∀ (fuel a : Nat),
      (∀ i, i < fuel → (responses (a + i)).status_code ≠ 200) →
      pollLoop responses fuel a .none = (a + fuel, .none) := by
  intro fuel
  induction fuel with
  | zero => intro a _; simp [pollLoop]
  | succ n ih =>
    intro a h
    have h₀ : (responses a).status_code ≠ 200 := by
      have := h 0 n.succ_pos
      simpa using this
    have hrest := ih (a + 1) (fun i hi => by
      have := h (i + 1) (by omega)
      simpa [Nat.add_assoc, Nat.add_comm 1 i] using this)
    simp [pollLoop, h₀, hrest]
    omega

/-- If the first 200 response arrives at offset `k` within the budget, the
loop stops there with that response's body after `k + 1` iterations. -/
theorem pollLoop_first200 (responses : Nat → Response) :
    ∀ (k fuel a : Nat), k < fuel →
      (∀ i, i < k → (responses (a + i)).status_code ≠ 200) →
      (responses (a + k)).status_code = 200 →
      pollLoop responses fuel a .none = (a + k + 1, (responses (a + k)).body) := by
  intro k
  induction k with
  | zero =>
    intro fuel a hk _ h200
    obtain ⟨f, rfl⟩ : ∃ f, fuel = f + 1 := ⟨fuel - 1, by omega⟩
    simp only [Nat.add_zero] at h200
    simp [pollLoop, h200]
  | succ n ih =>
    intro fuel a hk hbefore h200
    obtain ⟨f, rfl⟩ : ∃ f, fuel = f + 1 := ⟨fuel - 1, by omega⟩
    have h₀ : (responses a).status_code ≠ 200 := by
      have := hbefore 0 n.succ_pos
      simpa using this
    have hrest := ih f (a + 1) (by omega)
      (fun i hi => by
        have := hbefore (i + 1) (by omega)
        simpa [Nat.add_assoc, Nat.add_comm 1 i] using this)
      (by
        have : a + 1 + n = a + (n + 1) := by omega
        rw [this]
        exact h200)
    simp [pollLoop, h₀, hrest]
    constructor
    · omega
    · have : a + 1 + n = a + (n + 1) := by omega
      rw [this]

/-- C2 (counterexample): against an endpoint that always answers 500,
`_wait_for_task` with `max_attempts = 3` makes 3 attempts and then raises
`TypeError` (subscripting `None` in `return result["result"]`) — it does
NOT terminate with a silent `None`/absent result as the claim states. -/
theorem waitForTask_timeout_not_silent_cex :
    waitForTask (fun _ => ⟨500, .dict []⟩) 3 = (3, .error .typeError) := rfl

/-- C2 (amended): for every task whose polling endpoint never returns
status 200 within the budget, `_wait_for_task` makes exactly
`max_attempts` attempts and terminates — but it then raises `TypeError`
by evaluating `result["result"]` with `result = None`, rather than
yielding `None` as a silent non-failure. -/
theorem waitForTask_exhaust_raises (responses : Nat → Response)
    (maxAttempts : Nat)
    (h : ∀ i, i < maxAttempts → (responses i).status_code ≠ 200) :
    waitForTask responses maxAttempts = (maxAttempts, .error .typeError) := by
  have hloop := pollLoop_exhaust responses maxAttempts 0 (by simpa using h)
  simp [waitForTask, hloop, subscript]

/-- C2 (witness): the amended theorem applied to the always-500 endpoint
with `max_attempts = 3`. -/
theorem waitForTask_exhaust_raises_witness :
    waitForTask (fun _ => ⟨500, .none⟩) 3 = (3, .error .typeError) :=
  waitForTask_exhaust_raises (fun _ => ⟨500, .none⟩) 3 (by decide)

/-- C3: whenever some response within the attempt budget has status 200,
`_wait_for_task` stops at the first such response, makes exactly `k + 1`
attempts (where `k` is its offset), and returns the `result` field of that
response's body. -/
theorem waitForTask_first_success (responses : Nat → Response)
    (maxAttempts k : Nat) (v : PyVal)
    (hk : k < maxAttempts)
    (hbefore : ∀ i, i < k → (responses i).status_code ≠ 200)
    (h200 : (responses k).status_code = 200)
    (hres : subscript (responses k).body "result" = .ok v) :
    waitForTask responses maxAttempts = (k + 1, .ok v) := by
  have hloop := pollLoop_first200 responses k maxAttempts 0 hk
    (by simpa using hbefore) (by simpa using h200)
  simp only [Nat.zero_add] at hloop
  simp [waitForTask, hloop, hres]

/-- C3 (witness): two 500 responses followed by a 200 response with body
`{"result": 42}` yield `42` after exactly 3 attempts. -/
theorem waitForTask_first_success_witness :
    waitForTask
      (fun i => if i < 2 then ⟨500, .none⟩ else ⟨200, .dict [("result", .int 42)]⟩)
      3 = (3, .ok (.int 42)) :=
  waitForTask_first_success _ 3 2 (.int 42) (by decide) (by decide) rfl rfl

/-! ## Codec lemmas -/

/-- On a list of encoded leaves that decode pointwise, the comprehension
decodes pointwise. -/
theorem decList_eq_decodeLeavesList (ws : List PyVal)
    (h : ∀ v ∈ ws, dec_or_iterate v = .ok (decodeLeaves v) ∧
      shapeOf (decodeLeaves v) = shapeOf v) :
    decList ws = .ok (decodeLeavesList ws) ∧
      shapeOfList (decodeLeavesList ws) = shapeOfList ws := by
  induction ws with
  | nil => simp [decList, decodeLeavesList, shapeOfList]
  | cons v vs ih =>
    obtain ⟨hv, hvs⟩ := h v (List.mem_cons_self v vs)
    obtain ⟨ih₁, ih₂⟩ := ih (fun w hw => h w (List.mem_cons_of_mem v hw))
    refine ⟨?_, ?_⟩
    · simp [decList, decodeLeavesList, hv, ih₁]
    · simp [decodeLeavesList, shapeOfList, hvs, ih₂]

/-- C8: on every nested ordered sequence of encoded (string) leaves,
`dec_or_iterate` succeeds, replaces exactly the leaf strings by decoded
arrays (`decodeLeaves`), and the output container shape equals the input
container shape (nesting depth and order are preserved). -/
theorem dec_or_iterate_preserves_structure (v : PyVal) (h : IsEncodedSeq v) :
    dec_or_iterate v = .ok (decodeLeaves v) ∧
      shapeOf (decodeLeaves v) = shapeOf v := by
  induction h with
  | str s => simp [dec_or_iterate, decodeLeaves, shapeOf]
  | list vs _ ih =>
    obtain ⟨h₁, h₂⟩ := decList_eq_decodeLeavesList vs ih
    refine ⟨?_, ?_⟩
    · simp [dec_or_iterate, decodeLeaves, h₁]
    · simp [decodeLeaves, shapeOf, h₂]

/-- C8 (witness): the theorem applied to
`["a", ["b", "c"]]` (as encoded leaves). -/
theorem dec_or_iterate_preserves_structure_witness :
    dec_or_iterate (.list [.str "a", .list [.str "b", .str "c"]]) =
      .ok (decodeLeaves (.list [.str "a", .list [.str "b", .str "c"]])) ∧
    shapeOf (decodeLeaves (.list [.str "a", .list [.str "b", .str "c"]])) =
      shapeOf (.list [.str "a", .list [.str "b", .str "c"]]) :=
  dec_or_iterate_preserves_structure _ (by
    refine IsEncodedSeq.list _ ?_
    intro v hv
    simp only [List.mem_cons, List.not_mem_nil, or_false] at hv
    rcases hv with rfl | rfl
    · exact IsEncodedSeq.str "a"
    · refine IsEncodedSeq.list _ ?_
      intro w hw
      simp only [List.mem_cons, List.not_mem_nil, or_false] at hw
      rcases hw with rfl | rfl
      · exact IsEncodedSeq.str "b"
      · exact IsEncodedSeq.str "c")

/-- Updating key `k` leaves lookups of any other key unchanged. -/
theorem lookup_dictSet_ne (k k₂ : String) (v : PyVal) (h : k₂ ≠ k) :
    ∀ entries : List (String × PyVal),
      (dictSet entries k v).lookup k₂ = entries.lookup k₂ := by
  have hbk : (k₂ == k) = false := beq_eq_false_iff_ne.mpr h
  intro entries
  induction entries with
  | nil => simp [dictSet, List.lookup, hbk]
  | cons e rest ih =>
    obtain ⟨k₁, v₁⟩ := e
    by_cases hk : k₁ = k
    · subst hk
      simp [dictSet, List.lookup, hbk]
    · simp [dictSet, hk, List.lookup, ih]

/-- Updating key `k` makes lookups of `k` find the new value. -/
theorem lookup_dictSet_self (k : String) (v : PyVal) :
    ∀ entries : List (String × PyVal),
      (dictSet entries k v).lookup k = some v := by
  intro entries
  induction entries with
  | nil => simp [dictSet, List.lookup]
  | cons e rest ih =>
    obtain ⟨k₁, v₁⟩ := e
    by_cases hk : k₁ = k
    · subst hk
      simp [dictSet, List.lookup]
    · have hbk : (k == k₁) = false := beq_eq_false_iff_ne.mpr (Ne.symm hk)
      simp [dictSet, hk, List.lookup, ih, hbk]

/-- Subscripting never raises `ValueError`: its failures are `KeyError`
(missing key) and `TypeError` (non-subscriptable value). -/
theorem subscript_ne_valueError (v : PyVal) (k : String) :
    subscript v k ≠ .error .valueError := by
  cases v <;> simp [subscript]
  case dict entries => cases entries.lookup k <;> simp

/-- A successful dict subscript is exactly a successful lookup. -/
theorem subscript_dict_ok (entries : List (String × PyVal)) (k : String)
    (x : PyVal) :
    subscript (.dict entries) k = .ok x ↔ entries.lookup k = some x := by
  simp only [subscript]
  cases entries.lookup k <;> simp

/-- Anatomy of a successful decode: the input is a dict with both fields,
the outputs entry decodes, and the result is the input dict with its
`model_outputs` entry overwritten. -/
theorem decode_ok_elim (r out : PyVal)
    (h : decode_model_api_response r = .ok out) :
    ∃ entries flag outs outs₂,
      r = .dict entries ∧
      entries.lookup "model_output_is_encoded" = some flag ∧
      entries.lookup "model_outputs" = some outs ∧
      decodeOutputs flag outs = .ok outs₂ ∧
      out = .dict (dictSet entries "model_outputs" outs₂) := by
  unfold decode_model_api_response at h
  cases hf : subscript r "model_output_is_encoded" with
  | error e => rw [hf] at h; cases h
  | ok flag =>
    rw [hf] at h
    cases ho : subscript r "model_outputs" with
    | error e => rw [ho] at h; cases h
    | ok outs =>
      rw [ho] at h
      simp only [] at h
      cases hd : decodeOutputs flag outs with
      | error e => rw [hd] at h; cases h
      | ok outs₂ =>
        rw [hd] at h
        obtain ⟨entries, rfl⟩ : ∃ entries, r = .dict entries := by
          cases r <;> simp [subscript] at hf ⊢
        refine ⟨entries, flag, outs, outs₂, rfl, ?_, ?_, hd, ?_⟩
        · exact (subscript_dict_ok entries _ flag).mp hf
        · exact (subscript_dict_ok entries _ outs).mp ho
        · cases h
          simp [setItem]

/-- C5 (counterexample): decoding does NOT leave the input value
unchanged.  `decode_model_api_response` assigns into the dict it was
given and returns it, so after the call the argument holds the decoded
outputs: on `{"model_output_is_encoded": true, "model_outputs":
{"x": "AAA"}}` the post-call value of the argument differs from the
input. -/
theorem decode_mutates_input_cex :
    decode_model_api_response
        (.dict [("model_output_is_encoded", .boolV true),
                ("model_outputs", .dict [("x", .str "AAA")])]) =
      .ok (.dict [("model_output_is_encoded", .boolV true),
                  ("model_outputs", .dict [("x", .ndarrayB64 "AAA")])]) ∧
    PyVal.dict [("model_output_is_encoded", .boolV true),
                ("model_outputs", .dict [("x", .ndarrayB64 "AAA")])] ≠
      PyVal.dict [("model_output_is_encoded", .boolV true),
                  ("model_outputs", .dict [("x", .str "AAA")])] :=
  ⟨rfl, by simp⟩

/-- C5 (amended): decoding is deterministic and its only effect is on the
`model_outputs` entry of its argument — after a successful call the
argument (which is also the return value) still maps every key other
than `model_outputs` to its original value; the input as a whole is not
left unchanged. -/
theorem decode_frame_other_keys (r out : PyVal)
    (h : decode_model_api_response r = .ok out) (k : String)
    (hk : k ≠ "model_outputs") : subscript out k = subscript r k := by
  obtain ⟨entries, flag, outs, outs₂, rfl, hf, ho, hd, rfl⟩ :=
    decode_ok_elim r out h
  simp [subscript, lookup_dictSet_ne _ _ _ hk entries]

/-- C5 (witness): the amended theorem applied to the counterexample
input at the key `model_output_is_encoded`. -/
theorem decode_frame_other_keys_witness :
    subscript
        (.dict [("model_output_is_encoded", .boolV true),
                ("model_outputs", .dict [("x", .ndarrayB64 "AAA")])])
        "model_output_is_encoded" =
      subscript
        (.dict [("model_output_is_encoded", .boolV true),
                ("model_outputs", .dict [("x", .str "AAA")])])
        "model_output_is_encoded" :=
  decode_frame_other_keys
    (.dict [("model_output_is_encoded", .boolV true),
            ("model_outputs", .dict [("x", .str "AAA")])])
    (.dict [("model_output_is_encoded", .boolV true),
            ("model_outputs", .dict [("x", .ndarrayB64 "AAA")])])
    rfl "model_output_is_encoded" (by decide)

/-- C9: `decode_model_api_response` returns the mapping it was given
(which the source mutates in place), with every key other than
`model_outputs` mapped to its original value; only the `model_outputs`
entry is replaced, namely by its decoded form `decodeOutputs`. -/
theorem decode_updates_only_model_outputs (r out : PyVal)
    (h : decode_model_api_response r = .ok out) :
    (∀ k, k ≠ "model_outputs" → subscript out k = subscript r k) ∧
    (∃ flag outs outs₂,
      subscript r "model_output_is_encoded" = .ok flag ∧
      subscript r "model_outputs" = .ok outs ∧
      decodeOutputs flag outs = .ok outs₂ ∧
      subscript out "model_outputs" = .ok outs₂) := by
  obtain ⟨entries, flag, outs, outs₂, rfl, hf, ho, hd, rfl⟩ :=
    decode_ok_elim r out h
  constructor
  · intro k hk
    simp [subscript, lookup_dictSet_ne _ _ _ hk entries]
  · refine ⟨flag, outs, outs₂, ?_, ?_, hd, ?_⟩
    · exact (subscript_dict_ok entries _ flag).mpr hf
    · exact (subscript_dict_ok entries _ outs).mpr ho
    · simp [subscript, lookup_dictSet_self]

/-- C9 (witness): the theorem applied to a concrete response carrying an
extra key `other`, observed at that key. -/
theorem decode_updates_only_model_outputs_witness :
    subscript
        (.dict [("model_output_is_encoded", .boolV true),
                ("other", .int 7),
                ("model_outputs", .dict [("x", .ndarrayB64 "QQ")])])
        "other" =
      subscript
        (.dict [("model_output_is_encoded", .boolV true),
                ("other", .int 7),
                ("model_outputs", .dict [("x", .str "QQ")])])
        "other" :=
  (decode_updates_only_model_outputs
    (.dict [("model_output_is_encoded", .boolV true),
            ("other", .int 7),
            ("model_outputs", .dict [("x", .str "QQ")])])
    (.dict [("model_output_is_encoded", .boolV true),
            ("other", .int 7),
            ("model_outputs", .dict [("x", .ndarrayB64 "QQ")])])
    rfl).1 "other" (by decide)

/-- C10: on the unencoded branch (`model_output_is_encoded` falsy) the
codec performs no leaf-type validation — every value in `model_outputs`
is wrapped by `np.array` as-is, so in particular a string leaf raises
nothing there; and whenever the codec raises the unsupported-leaf
`ValueError` at all, the encoded (truthy-flag) branch was taken. -/
theorem decode_unencoded_no_leaf_validation (r : PyVal) :
    (∀ flag entries, subscript r "model_output_is_encoded" = .ok flag →
      truthy flag = false →
      subscript r "model_outputs" = .ok (.dict entries) →
      decode_model_api_response r =
        .ok (setItem r "model_outputs"
          (.dict (entries.map fun e => (e.1, .ndarrayOf e.2))))) ∧
    (decode_model_api_response r = .error .valueError →
      ∃ flag, subscript r "model_output_is_encoded" = .ok flag ∧
        truthy flag = true) := by
  constructor
  · intro flag entries hf hflag ho
    unfold decode_model_api_response
    rw [hf, ho]
    simp only []
    simp [decodeOutputs, hflag]
  · intro h
    unfold decode_model_api_response at h
    cases hf : subscript r "model_output_is_encoded" with
    | error e =>
      rw [hf] at h
      simp only [] at h
      cases h
      exact absurd hf (subscript_ne_valueError r _)
    | ok flag =>
      rw [hf] at h
      cases ho : subscript r "model_outputs" with
      | error e =>
        rw [ho] at h
        simp only [] at h
        cases h
        exact absurd ho (subscript_ne_valueError r _)
      | ok outs =>
        rw [ho] at h
        simp only [] at h
        cases hd : decodeOutputs flag outs with
        | ok outs₂ => rw [hd] at h; cases h
        | error e =>
          rw [hd] at h
          cases h
          refine ⟨flag, rfl, ?_⟩
          cases outs with
          | dict entries =>
            by_cases ht : truthy flag = true
            · exact ht
            · simp [decodeOutputs, ht] at hd
          | str s => simp [decodeOutputs] at hd
          | int n => simp [decodeOutputs] at hd
          | boolV b => simp [decodeOutputs] at hd
          | none => simp [decodeOutputs] at hd
          | list vs => simp [decodeOutputs] at hd
          | ndarrayB64 s => simp [decodeOutputs] at hd
          | ndarrayOf v => simp [decodeOutputs] at hd

/-- C10 (witness): a string leaf under `model_output_is_encoded = false`
is wrapped as-is, raising nothing. -/
theorem decode_unencoded_no_leaf_validation_witness :
    decode_model_api_response
        (.dict [("model_output_is_encoded", .boolV false),
                ("model_outputs", .dict [("a", .str "hello")])]) =
      .ok (setItem
        (.dict [("model_output_is_encoded", .boolV false),
                ("model_outputs", .dict [("a", .str "hello")])])
        "model_outputs" (.dict [("a", .ndarrayOf (.str "hello"))])) :=
  (decode_unencoded_no_leaf_validation _).1 (.boolV false)
    [("a", .str "hello")] rfl rfl rfl

/-! ## Prediction facade theorems -/

/-- The poller's outcome is a subscript of the final loop result, so it
can fail only with `TypeError` or `KeyError`, never `ValueError`. -/
theorem waitForTask_snd_ne_valueError (responses : Nat → Response)
    (maxAttempts : Nat) :
    (waitForTask responses maxAttempts).2 ≠ .error .valueError :=
  subscript_ne_valueError (pollLoop responses maxAttempts 0 .none).2 "result"

/-- C6: an unsupported `prediction_method` makes `predict` raise
`ValueError` with no network request issued (the request list is empty
and the outcome is independent of the network); a supported method never
raises that validation error. -/
theorem predict_validates_method (net : Net) (mid pm : String) (inp : PyVal) :
    (pm ∉ supported_prediction_methods →
      predict net mid pm inp = ([], .error .valueError)) ∧
    (pm ∈ supported_prediction_methods →
      (predict net mid pm inp).2 ≠ .error .valueError) := by
  constructor
  · intro h
    simp [predict, h]
  · intro h hcontra
    unfold predict at hcontra
    rw [if_neg (not_not_intro h)] at hcontra
    simp only [] at hcontra
    split at hcontra
    · split at hcontra
      · rename_i e heq
        simp only [] at hcontra
        cases hcontra
        exact absurd heq (subscript_ne_valueError _ _)
      · rename_i task_id heq
        simp only [] at hcontra
        split at hcontra
        · cases hcontra
        · rename_i e heq₂
          cases hcontra
          exact absurd heq₂ (waitForTask_snd_ne_valueError _ _)
    · cases hcontra

/-- C6 (witness): `predict` with method `bogus` raises the validation
error with an empty request trace, whatever the network would answer. -/
theorem predict_validates_method_witness :
    predict
        ⟨⟨200, .dict [("task_id", .str "t")]⟩,
         fun _ => ⟨200, .dict [("result", .int 1)]⟩⟩
        "bert" "bogus" .none = ([], .error .valueError) :=
  (predict_validates_method
    ⟨⟨200, .dict [("task_id", .str "t")]⟩,
     fun _ => ⟨200, .dict [("result", .int 1)]⟩⟩
    "bert" "bogus" .none).1 (by decide)

/-- C4 (counterexample): the value `predict` hands back to ITS caller is
the raw polled task result, not its codec-decoded form: on a completed
task whose result holds plain (unencoded) outputs, `predict` returns the
result as-is, while the codec maps it to a different value. -/
theorem predict_returns_undecoded_cex :
    (predict
        ⟨⟨200, .dict [("task_id", .str "t")]⟩,
         fun _ => ⟨200, .dict [("result",
           .dict [("model_output_is_encoded", .boolV false),
                  ("model_outputs", .dict [("a", .list [.int 1])])])]⟩⟩
        "bert" "embedding" .none).2 =
      .ok (.value (.dict [("model_output_is_encoded", .boolV false),
                          ("model_outputs", .dict [("a", .list [.int 1])])])) ∧
    decode_model_api_response
        (.dict [("model_output_is_encoded", .boolV false),
                ("model_outputs", .dict [("a", .list [.int 1])])]) =
      .ok (.dict [("model_output_is_encoded", .boolV false),
                  ("model_outputs", .dict [("a", .ndarrayOf (.list [.int 1]))])]) ∧
    PyVal.dict [("model_output_is_encoded", .boolV false),
                ("model_outputs", .dict [("a", .ndarrayOf (.list [.int 1]))])] ≠
      PyVal.dict [("model_output_is_encoded", .boolV false),
                  ("model_outputs", .dict [("a", .list [.int 1])])] :=
  ⟨rfl, rfl, by simp⟩

/-- C4 (amended): the decoding step lives in `__call__`, which wraps
`predict`: whenever `predict` resolves to a polled task result, the value
`__call__` returns to its caller is that result passed through
`decode_model_api_response`. -/
theorem call_decodes_polled_result (net : Net) (model_name pipeline : String)
    (model_request v w : PyVal)
    (hp : (predict net model_name pipeline model_request).2 = .ok (.value v))
    (hd : decode_model_api_response v = .ok w) :
    (callClient net model_name pipeline model_request).2 = .ok w := by
  simp [callClient, hp, hd]

/-- C4 (witness): the amended theorem applied to the counterexample
network: `__call__` yields the decoded outputs. -/
theorem call_decodes_polled_result_witness :
    (callClient
        ⟨⟨200, .dict [("task_id", .str "t")]⟩,
         fun _ => ⟨200, .dict [("result",
           .dict [("model_output_is_encoded", .boolV false),
                  ("model_outputs", .dict [("a", .list [.int 1])])])]⟩⟩
        "bert" "embedding" .none).2 =
      .ok (.dict [("model_output_is_encoded", .boolV false),
                  ("model_outputs", .dict [("a", .ndarrayOf (.list [.int 1]))])]) :=
  call_decodes_polled_result
    ⟨⟨200, .dict [("task_id", .str "t")]⟩,
     fun _ => ⟨200, .dict [("result",
       .dict [("model_output_is_encoded", .boolV false),
              ("model_outputs", .dict [("a", .list [.int 1])])])]⟩⟩
    "bert" "embedding" .none
    (.dict [("model_output_is_encoded", .boolV false),
            ("model_outputs", .dict [("a", .list [.int 1])])])
    (.dict [("model_output_is_encoded", .boolV false),
            ("model_outputs", .dict [("a", .ndarrayOf (.list [.int 1]))])])
    rfl rfl

/-! ## Deployment guard theorems -/

/-- On well-formed records the lazily-evaluated, short-circuiting `any`
generator of the guard computes exactly the pointwise record match. -/
theorem anyModelMatches_eq_any (model_name : PyVal) (model_type : String) :
    ∀ models : List PyVal, (∀ m ∈ models, wfRecordB m = true) →
      anyModelMatches models model_name model_type =
        .ok (models.any fun m => recordMatchesB m model_name model_type) := by
  intro models
  induction models with
  | nil => simp [anyModelMatches]
  | cons m rest ih =>
    intro hwf
    have hm := hwf m (List.mem_cons_self m rest)
    have hrest := ih (fun x hx => hwf x (List.mem_cons_of_mem m hx))
    cases m with
    | dict entries =>
      simp only [wfRecordB, Bool.and_eq_true, Option.isSome_iff_exists] at hm
      obtain ⟨⟨mn, hmn⟩, ⟨mt, hmt⟩⟩ := hm
      have hs₁ : subscript (.dict entries) "model_name" = .ok mn :=
        (subscript_dict_ok entries _ mn).mpr hmn
      have hs₂ : subscript (.dict entries) "model_type" = .ok mt :=
        (subscript_dict_ok entries _ mt).mpr hmt
      simp only [anyModelMatches]
      rw [hs₁]
      simp only []
      by_cases hq₁ : pyEq mn model_name = true
      · rw [if_pos hq₁, hs₂]
        simp only []
        by_cases hq₂ : pyEq mt (.str model_type) = true
        · simp [recordMatchesB, hmn, hmt, hq₁, hq₂]
        · simp only [Bool.not_eq_true] at hq₂
          simp [recordMatchesB, hmn, hmt, hq₁, hq₂, hrest]
      · simp only [Bool.not_eq_true] at hq₁
        simp [recordMatchesB, hmn, hmt, hq₁, hrest]
    | str s => simp [wfRecordB] at hm
    | int n => simp [wfRecordB] at hm
    | boolV b => simp [wfRecordB] at hm
    | none => simp [wfRecordB] at hm
    | list vs => simp [wfRecordB] at hm
    | ndarrayB64 s => simp [wfRecordB] at hm
    | ndarrayOf v => simp [wfRecordB] at hm

/-- C1: for a spec dict with a non-empty base model name `s` and
well-formed deployed-model records, `deploy_model_if_not_exists` triggers
`deploy` if and only if no record of `deployed_models()` matches
`(s, model_type)` AND `get_models_in_deployment()` does not map `s` to
that type — and when it triggers, the single `deploy` call gets exactly
`{identifier: s, model_name: s, model_type}`; otherwise nothing is
deployed. -/
theorem deploy_model_if_not_exists_spec (env : GuardEnv)
    (default_skill_args : List (String × PyVal)) (s ty : String)
    (hname : default_skill_args.lookup "base_model" = some (.str s))
    (hs : s ≠ "")
    (hty : ty = if (default_skill_args.lookup "adapter").isSome then "adapter"
      else "transformer")
    (hwf : ∀ m ∈ env.deployedModels, wfRecordB m = true) :
    deploy_model_if_not_exists env default_skill_args =
      .ok (if (env.deployedModels.any fun m => recordMatchesB m (.str s) ty) = false
            ∧ pyEq (pyDictGet env.modelsInDeployment (.str s) (.str "")) (.str ty) = false
          then .deployCalled
            [("identifier", .str s), ("model_name", .str s),
             ("model_type", .str ty)]
          else .noDeploy) := by
  subst hty
  unfold deploy_model_if_not_exists
  rw [hname]
  simp only [Option.getD_some]
  have htr : truthy (.str s) = true := by simp [truthy, hs]
  rw [if_neg (not_not_intro htr)]
  rw [anyModelMatches_eq_any _ _ env.deployedModels hwf]
  cases hany : env.deployedModels.any fun m => recordMatchesB m (.str s)
      (if (default_skill_args.lookup "adapter").isSome then "adapter"
       else "transformer") with
  | true => simp [hany]
  | false =>
    simp only []
    by_cases hq : pyEq
        (pyDictGet env.modelsInDeployment (.str s) (.str ""))
        (.str (if (default_skill_args.lookup "adapter").isSome then "adapter"
          else "transformer")) = true
    · simp [hq]
    · simp only [Bool.not_eq_true] at hq
      simp [hq]

/-- C1 (witness): with no deployed models and nothing in deployment,
`deploy_model_if_not_exists({"base_model": "bert"})` triggers exactly one
deploy with `{identifier: "bert", model_name: "bert", model_type:
"transformer"}`. -/
theorem deploy_model_if_not_exists_spec_witness :
    deploy_model_if_not_exists ⟨[], []⟩ [("base_model", .str "bert")] =
      .ok (.deployCalled
        [("identifier", .str "bert"), ("model_name", .str "bert"),
         ("model_type", .str "transformer")]) := by
  have h := deploy_model_if_not_exists_spec ⟨[], []⟩
    [("base_model", .str "bert")] "bert" "transformer" rfl (by decide) rfl
    (by simp)
  exact h.trans (by rw [if_pos ⟨rfl, rfl⟩])

/-- C7: through the guard's observable behaviour (here against an empty
environment, which always deploys): the derived `model_type` of the
triggered deploy call is `"adapter"` exactly when the spec dict contains
an `"adapter"` key, and `"transformer"` otherwise. -/
theorem guard_derives_model_type (default_skill_args : List (String × PyVal))
    (s : String)
    (hname : default_skill_args.lookup "base_model" = some (.str s))
    (hs : s ≠ "") :
    deploy_model_if_not_exists ⟨[], []⟩ default_skill_args =
      .ok (.deployCalled
        [("identifier", .str s), ("model_name", .str s),
         ("model_type", .str (if (default_skill_args.lookup "adapter").isSome
           then "adapter" else "transformer"))]) := by
  unfold deploy_model_if_not_exists
  rw [hname]
  simp only [Option.getD_some]
  have htr : truthy (.str s) = true := by simp [truthy, hs]
  rw [if_neg (not_not_intro htr)]
  simp only [anyModelMatches, pyDictGet]
  by_cases ha : (default_skill_args.lookup "adapter").isSome
  · simp [ha, pyEq]
  · simp [ha, pyEq]

/-- C7 (witness): a spec dict with an `"adapter"` key derives
`model_type = "adapter"`; the same dict without it would derive
`"transformer"` (see the C1 witness). -/
theorem guard_derives_model_type_witness :
    deploy_model_if_not_exists ⟨[], []⟩
        [("base_model", .str "bert"), ("adapter", .str "pal")] =
      .ok (.deployCalled
        [("identifier", .str "bert"), ("model_name", .str "bert"),
         ("model_type", .str "adapter")]) :=
  guard_derives_model_type
    [("base_model", .str "bert"), ("adapter", .str "pal")] "bert" rfl
    (by decide)
